import Mathlib

/-!
Verification of the image transformation pipeline in `src/services/image.js`
(format detection, shrink policy, resize geometry, persistence traces).

External npm libraries (`is-svg`, `image-type`, `is-animated`, `jimp`) are
modelled as components of an `Env` record of arbitrary functions, so every
theorem quantifies over all possible behaviours of those libraries; the code
of `image.js` itself is embedded definition by definition.
-/

/-- A byte buffer, modelled as a list of bytes. -/
abbrev ByteBuf := List Nat

/-- A JavaScript value returned by `getImageType`: either an object carrying an
`ext` field (`{ext: ...}` from `is-svg` handling or from the `image-type`
library), or a bare string (the `"jpg"` optimistic default on line 45). -/
inductive ImageTypeResult where
  | obj (ext : String)
  | str (s : String)
deriving DecidableEq

/-- Reading `.ext` on an `ImageTypeResult`: on a bare string the property
access yields JavaScript `undefined`, modelled as `none`. -/
def extField : ImageTypeResult → Option String
  | .obj e => some e
  | .str _ => none

/-- Behaviour of the external libraries consumed by `image.js`.
`resizeResult` is the outcome of the whole external `jimp` read/resize/encode
chain on a given buffer: `.ok` with the encoded bytes, or `.error` with the
exception stack. -/
structure Env where
  isSvg : ByteBuf → Bool
  imageTypeExt : ByteBuf → Option String
  isAnimated : ByteBuf → Bool
  resizeResult : ByteBuf → Except String ByteBuf

/-- `getImageType` (image.js lines 38-47): SVG check first, then the
`image-type` library, and the bare string `"jpg"` when that returns null. -/
def getImageType (env : Env) (buffer : ByteBuf) : ImageTypeResult :=
  if env.isSvg buffer then
    .obj "svg"
  else
    match env.imageTypeExt buffer with
    | some e => .obj e
    | none => .str "jpg"

/-- JavaScript's `toLowerCase()` on a string, modelled characterwise (the
extensions involved are ASCII). -/
def jsToLowerCase (s : String) : String :=
  ⟨s.data.map Char.toLower⟩

/-- `getImageMimeFromExtension` (image.js lines 49-53): lowercase the
extension, then map `svg` specially. -/
def getImageMimeFromExtension (ext : String) : String :=
  let e := jsToLowerCase ext
  "image/" ++ (if e = "svg" then "svg+xml" else e)

/-- `getImageMimeFromExtension` as called on a possibly-`undefined` `.ext`
field: calling `.toLowerCase()` on `undefined` throws a TypeError, modelled
as `none`. -/
def getImageMimeFromExtensionJs : Option String → Option String
  | some e => some (getImageMimeFromExtension e)
  | none => none

/-- The condition on image.js line 19: `origImageFormat && ["webp", "svg",
"gif"].includes(origImageFormat.ext)`.  The value is always truthy, and on a
bare string `.ext` is `undefined`, which is not in the list. -/
def blockedExt (fmt : ImageTypeResult) : Bool :=
  match extField fmt with
  | some e => ["webp", "svg", "gif"].contains e
  | none => false

/-- The effective value of `shrinkImageSwitch` after the two guards in
`processImage` (image.js lines 19-26). -/
def effectiveShrink (env : Env) (buffer : ByteBuf) (requested : Bool) : Bool :=
  if blockedExt (getImageType env buffer) then false
  else if env.isAnimated buffer then false
  else requested

/-- `shrinkImage` (image.js lines 112-132): try the external resize, on
failure log an error naming the original file and keep the original buffer;
afterwards discard the resized output when it is not strictly smaller.
Returns the final buffer together with the list of logged error messages. -/
def shrinkImage (env : Env) (buffer : ByteBuf) (originalName : String) :
    ByteBuf × List String :=
  let attempt : ByteBuf × List String :=
    match env.resizeResult buffer with
    | .ok r => (r, [])
    | .error stack =>
        (buffer, ["Failed to resize image '" ++ originalName ++ "'\nStack: " ++ stack])
  if attempt.1.length ≥ buffer.length then (buffer, attempt.2) else attempt

/-- The `{buffer, imageFormat}` record returned by `processImage`. -/
structure ProcessedAsset where
  buffer : ByteBuf
  imageFormat : ImageTypeResult
deriving DecidableEq

/-- `processImage` (image.js lines 16-36): detect the format, apply the
shrink policy, shrink or keep the buffer, and re-detect the final format. -/
def processImage (env : Env) (uploadBuffer : ByteBuf) (originalName : String)
    (shrinkImageSwitch : Bool) : ProcessedAsset :=
  let finalImageBuffer :=
    if effectiveShrink env uploadBuffer shrinkImageSwitch then
      (shrinkImage env uploadBuffer originalName).1
    else uploadBuffer
  { buffer := finalImageBuffer, imageFormat := getImageType env finalImageBuffer }

/-- JavaScript `Math.round (num / den)` for natural `num` and positive `den`:
round half up. -/
def jsRound (num den : Nat) : Nat := (2 * num + den) / (2 * den)

/-- Geometric core of `resize` (image.js lines 139-144): the two guarded
`image.resize` calls.  `jimp.AUTO` computes the free dimension proportionally
with `Math.round`. -/
def resizeDims (width height maxWidthHeight : Nat) : Nat × Nat :=
  if width > height ∧ width > maxWidthHeight then
    (maxWidthHeight, jsRound (height * maxWidthHeight) width)
  else if height > maxWidthHeight then
    (jsRound (width * maxWidthHeight) height, maxWidthHeight)
  else
    (width, height)

/-- The argument record of `noteService.createNewNote` in `saveImage`
(image.js lines 83-90). -/
structure NoteCfg where
  parentNoteId : String
  title : String
  type : String
  mime : String
  content : String
  isProtected : Bool
deriving DecidableEq

/-- The record returned by `saveImage` (image.js lines 104-109),
without the live `note` object. -/
structure SaveResult where
  fileName : String
  noteId : String
  url : String
deriving DecidableEq

/-- Observable events of the persistence coordinator, in the order the
single-threaded JavaScript runtime performs them. -/
inductive Ev where
  | logInfo (msg : String)
  | getNote (noteId : String)
  | createNoteRevision (noteId : String)
  | protectNoteRevisions (noteId : String)
  | setLabel (noteId key value : String)
  | createNewNote (noteId : String) (cfg : NoteCfg)
  | addLabel (noteId key value : String)
  | returnRecord (r : SaveResult)
  | txBegin
  | setMime (noteId mime : String)
  | save (noteId : String)
  | setContent (noteId : String) (bytes : ByteBuf)
  | txEnd
  | throwTypeError
deriving DecidableEq

/-- Events of the detached `.then` callback (image.js lines 66-73 and 95-102):
inside `sql.transactional`, set the MIME from `imageFormat.ext`, save, then
write the content.  When `imageFormat` is the bare string `"jpg"`, `.ext` is
`undefined` and `getImageMimeFromExtension` throws a TypeError on
`toLowerCase`, aborting the transaction before any write. -/
def commitEvents (noteId : String) (asset : ProcessedAsset) : List Ev :=
  match extField asset.imageFormat with
  | some e =>
      [.txBegin, .setMime noteId (getImageMimeFromExtension e), .save noteId,
       .setContent noteId asset.buffer, .txEnd]
  | none => [.txBegin, .throwTypeError]

/-- Event trace of `updateImage` (image.js lines 55-74): the synchronous part
runs first (log, lookup, revision snapshot, protect revisions, label), and
the detached `processImage(...).then` commit runs strictly afterwards, the
JavaScript runtime being single-threaded. -/
def updateImageTrace (env : Env) (noteId : String) (uploadBuffer : ByteBuf)
    (originalName : String) : List Ev :=
  [.logInfo ("Updating image " ++ noteId ++ ": " ++ originalName),
   .getNote noteId,
   .createNoteRevision noteId,
   .protectNoteRevisions noteId,
   .setLabel noteId "originalFileName" originalName]
  ++ commitEvents noteId (processImage env uploadBuffer originalName true)

/-- The synchronous result of `saveImage` (image.js lines 76-110): the
configuration of the created note and the returned record. -/
def saveImage (sanitize : String → String) (parentIsProtected sessionAvailable : Bool)
    (newNoteId parentNoteId originalName : String) : NoteCfg × SaveResult :=
  let fileName := sanitize originalName
  ({ parentNoteId := parentNoteId
     title := fileName
     type := "image"
     mime := "unknown"
     content := ""
     isProtected := parentIsProtected && sessionAvailable },
   { fileName := fileName
     noteId := newNoteId
     url := "api/images/" ++ newNoteId ++ "/" ++ fileName })

/-- Event trace of `saveImage`: synchronous creation and labelling, the
caller-visible return, then the detached commit. -/
def saveImageTrace (env : Env) (sanitize : String → String)
    (parentIsProtected sessionAvailable : Bool) (newNoteId parentNoteId : String)
    (uploadBuffer : ByteBuf) (originalName : String) (shrinkImageSwitch : Bool) :
    List Ev :=
  let (cfg, res) := saveImage sanitize parentIsProtected sessionAvailable
    newNoteId parentNoteId originalName
  [.logInfo ("Saving image " ++ originalName),
   .getNote parentNoteId,
   .createNewNote newNoteId cfg,
   .addLabel newNoteId "originalFileName" originalName,
   .returnRecord res]
  ++ commitEvents newNoteId (processImage env uploadBuffer originalName shrinkImageSwitch)

/-- The MIME derivation expression exactly as the spec writes it:
`extension == "svg" ? "image/svg+xml" : "image/" + extension.toLowerCase()`
(comparison on the raw extension, lowercasing only in the else branch). -/
def deriveMimeSpec (ext : String) : String :=
  if ext = "svg" then "image/svg+xml" else "image/" ++ jsToLowerCase ext

/-- A concrete environment used to exercise the theorems: toy signature
checks standing in for the external detection libraries. -/
def sampleEnv : Env where
  isSvg b := b.take 4 = [60, 115, 118, 103]
  imageTypeExt b :=
    if b.take 2 = [255, 216] then some "jpg"
    else if b.take 4 = [137, 80, 78, 71] then some "png"
    else if b.take 3 = [71, 73, 70] then some "gif"
    else none
  isAnimated b := b.take 3 = [71, 73, 70]
  resizeResult b :=
    if b.take 2 = [255, 216] ∨ b.take 4 = [137, 80, 78, 71] then .ok (b.take 3)
    else .error "Error: Could not find MIME for Buffer"

/-! ### Helper lemmas (shared) -/

/-- The buffer kept by `shrinkImage` is never longer than its input: the
fallback on line 127 discards any output that is not strictly smaller. -/
theorem shrinkImage_length_le (env : Env) (b : ByteBuf) (name : String) :
    (shrinkImage env b name).1.length ≤ b.length := by
  simp only [shrinkImage]
  split
  · exact Nat.le_refl _
  · next h => omega

/-- When the external resize fails, `shrinkImage` keeps the original buffer
and logs one error message naming the original file. -/
theorem shrinkImage_resizeError (env : Env) (b : ByteBuf) (name stack : String)
    (hfail : env.resizeResult b = .error stack) :
    shrinkImage env b name =
      (b, ["Failed to resize image '" ++ name ++ "'\nStack: " ++ stack]) := by
  simp [shrinkImage, hfail]

/-- A requested-`false` shrink stays `false` through both policy guards. -/
theorem effectiveShrink_false (env : Env) (b : ByteBuf) :
    effectiveShrink env b false = false := by
  simp [effectiveShrink]

/-- The final format field is the re-detection of the final buffer. -/
theorem processImage_imageFormat (env : Env) (b : ByteBuf) (name : String) (sw : Bool) :
    (processImage env b name sw).imageFormat =
      getImageType env (processImage env b name sw).buffer := rfl

/-- When the external resize fails, `processImage` returns the original
bytes whatever the shrink switch was. -/
theorem processImage_buffer_of_resizeError (env : Env) (b : ByteBuf)
    (name stack : String) (hfail : env.resizeResult b = .error stack) (sw : Bool) :
    (processImage env b name sw).buffer = b := by
  simp only [processImage]
  split
  · rw [shrinkImage_resizeError env b name stack hfail]
  · rfl

/-! ### Claim theorems -/

/-- **C2**: for every input buffer, original name and shrink flag, the buffer
returned by `processImage` is never longer than the input, and whenever the
effective shrink decision is `false` (flag false or forced off by policy) the
returned buffer is byte-for-byte the input. -/
theorem processImage_length_invariant (env : Env) (b : ByteBuf) (name : String)
    (sw : Bool) :
    (processImage env b name sw).buffer.length ≤ b.length ∧
      (effectiveShrink env b sw = false → (processImage env b name sw).buffer = b) := by
  constructor
  · simp only [processImage]
    split
    · exact shrinkImage_length_le env b name
    · exact Nat.le_refl _
  · intro h
    simp [processImage, h]

/-- Witness for C2 at a concrete SVG-signature input, where the policy forces
the shrink decision off. -/
theorem processImage_length_invariant_witness :
    (processImage sampleEnv [60, 115, 118, 103] "a.svg" true).buffer.length ≤
      ([60, 115, 118, 103] : ByteBuf).length ∧
    effectiveShrink sampleEnv [60, 115, 118, 103] true = false ∧
    (processImage sampleEnv [60, 115, 118, 103] "a.svg" true).buffer = [60, 115, 118, 103] :=
  ⟨(processImage_length_invariant sampleEnv [60, 115, 118, 103] "a.svg" true).1,
   by decide,
   (processImage_length_invariant sampleEnv [60, 115, 118, 103] "a.svg" true).2 (by decide)⟩

/-- **C3**: the effective shrink decision is `false` whenever the detected
format's extension is one of webp/svg/gif or the buffer is detected as
animated, regardless of the requested flag; otherwise it equals the
requested flag. -/
theorem effectiveShrink_policy (env : Env) (b : ByteBuf) (req : Bool) :
    (∀ e, extField (getImageType env b) = some e → e ∈ ["webp", "svg", "gif"] →
      effectiveShrink env b req = false) ∧
    (env.isAnimated b = true → effectiveShrink env b req = false) ∧
    ((∀ e, extField (getImageType env b) = some e → e ∉ ["webp", "svg", "gif"]) →
      env.isAnimated b = false → effectiveShrink env b req = req) := by
  refine ⟨fun e he hmem => ?_, fun ha => ?_, fun hne ha => ?_⟩
  · have hb : blockedExt (getImageType env b) = true := by
      simp [blockedExt, he]
      simpa using hmem
    simp [effectiveShrink, hb]
  · simp only [effectiveShrink]
    split
    · rfl
    · simp [ha]
  · have hb : blockedExt (getImageType env b) = false := by
      simp only [blockedExt]
      cases hx : extField (getImageType env b) with
      | none => rfl
      | some e =>
          have := hne e hx
          simpa using this
    simp [effectiveShrink, hb, ha]

/-- Witness for C3: a gif input is never shrunk even when requested, and a
plain non-animated jpg input keeps the requested flag. -/
theorem effectiveShrink_policy_witness :
    effectiveShrink sampleEnv [71, 73, 70] true = false ∧
    effectiveShrink sampleEnv [71, 73, 70, 56] true = false ∧
    effectiveShrink sampleEnv [255, 216, 3] true = true :=
  ⟨(effectiveShrink_policy sampleEnv [71, 73, 70] true).1 "gif" (by decide) (by decide),
   (effectiveShrink_policy sampleEnv [71, 73, 70, 56] true).2.1 (by decide),
   (effectiveShrink_policy sampleEnv [255, 216, 3] true).2.2
     (by intro e he; simp [sampleEnv, getImageType, extField] at he; simp [← he])
     (by decide)⟩

/-- **C5** (counterexample): the code lowercases *before* comparing with
`"svg"`, so on input `"SVG"` it returns `"image/svg+xml"` while the spec's
bit-exact expression, which compares the raw string first, returns
`"image/svg"`. -/
theorem getImageMime_ne_spec_at_SVG :
    getImageMimeFromExtension "SVG" = "image/svg+xml" ∧
      deriveMimeSpec "SVG" = "image/svg" ∧
      getImageMimeFromExtension "SVG" ≠ deriveMimeSpec "SVG" := by
  refine ⟨by decide, by decide, by decide⟩

/-- **C5** (amended): the MIME derived from an extension equals
`extension.toLowerCase() == "svg" ? "image/svg+xml" : "image/" +
extension.toLowerCase()` — the svg comparison is performed on the lowercased
extension; in particular `"svg"` maps to `"image/svg+xml"` and `"PNG"` to
`"image/png"`. -/
theorem getImageMimeFromExtension_spec :
    (∀ ext : String, getImageMimeFromExtension ext =
      if jsToLowerCase ext = "svg" then "image/svg+xml"
      else "image/" ++ jsToLowerCase ext) ∧
    getImageMimeFromExtension "svg" = "image/svg+xml" ∧
    getImageMimeFromExtension "PNG" = "image/png" := by
  refine ⟨fun ext => ?_, by decide, by decide⟩
  simp only [getImageMimeFromExtension]
  split
  · rfl
  · rfl

/-- **C4**: in `resize` the comparisons are strict and the branches are
taken in order — width-bound scaling exactly when `width > height` and
`width > max`, else height-bound scaling exactly when `height > max`, else
no geometric resize; a 3000×2000 image with `maxWidthHeight = 1000` becomes
1000×667. -/
theorem resizeDims_spec :
    (∀ w h m : Nat, w > h → w > m → resizeDims w h m = (m, jsRound (h * m) w)) ∧
    (∀ w h m : Nat, ¬(w > h ∧ w > m) → h > m →
      resizeDims w h m = (jsRound (w * m) h, m)) ∧
    (∀ w h m : Nat, ¬(w > h ∧ w > m) → ¬(h > m) → resizeDims w h m = (w, h)) ∧
    resizeDims 3000 2000 1000 = (1000, 667) := by
  refine ⟨fun w h m h1 h2 => ?_, fun w h m h1 h2 => ?_, fun w h m h1 h2 => ?_,
    by decide⟩
  · simp [resizeDims, h1, h2]
  · simp only [resizeDims]
    rw [if_neg h1, if_pos h2]
  · simp only [resizeDims]
    rw [if_neg h1, if_neg h2]

/-- Witness for C4: one concrete instance for each of the three branches. -/
theorem resizeDims_spec_witness :
    resizeDims 3000 2000 1000 = (1000, jsRound (2000 * 1000) 3000) ∧
    resizeDims 100 3000 1000 = (jsRound (100 * 1000) 3000, 1000) ∧
    resizeDims 500 400 1000 = (500, 400) :=
  ⟨resizeDims_spec.1 3000 2000 1000 (by decide) (by decide),
   resizeDims_spec.2.1 100 3000 1000 (by decide) (by decide),
   resizeDims_spec.2.2.1 500 400 1000 (by decide) (by decide)⟩

/-- **C7**: when the external resize fails, the pipeline recovers locally —
`shrinkImage` returns the untouched input buffer together with exactly one
logged error message containing the original filename, and `processImage`
returns the original bytes for every shrink flag; no failure propagates. -/
theorem resize_failure_recovered (env : Env) (b : ByteBuf) (name stack : String)
    (hfail : env.resizeResult b = .error stack) :
    shrinkImage env b name =
      (b, ["Failed to resize image '" ++ name ++ "'\nStack: " ++ stack]) ∧
    ∀ sw : Bool, (processImage env b name sw).buffer = b :=
  ⟨shrinkImage_resizeError env b name stack hfail,
   fun sw => processImage_buffer_of_resizeError env b name stack hfail sw⟩

/-- Witness for C7 at a concrete undecodable input. -/
theorem resize_failure_recovered_witness :
    shrinkImage sampleEnv [0, 1, 2] "photo.xyz" =
      ([0, 1, 2],
       ["Failed to resize image 'photo.xyz'\nStack: Error: Could not find MIME for Buffer"]) ∧
    (processImage sampleEnv [0, 1, 2] "photo.xyz" true).buffer = [0, 1, 2] :=
  ⟨(resize_failure_recovered sampleEnv [0, 1, 2] "photo.xyz"
      "Error: Could not find MIME for Buffer" (by rfl)).1,
   (resize_failure_recovered sampleEnv [0, 1, 2] "photo.xyz"
      "Error: Could not find MIME for Buffer" (by rfl)).2 true⟩

/-- **C10**: feeding the bytes of a processed asset back into `processImage`
with the shrink flag off returns the same asset: identical bytes and the
same detected format. -/
theorem processImage_idempotent_noShrink (env : Env) (b : ByteBuf)
    (name1 name2 : String) (sw : Bool) :
    processImage env (processImage env b name1 sw).buffer name2 false =
      processImage env b name1 sw := by
  have hfalse : ∀ b2 : ByteBuf, effectiveShrink env b2 false = false :=
    fun b2 => effectiveShrink_false env b2
  simp [processImage, hfalse]

/-- **C1**: contrary to the claim, on an input matching no signature
`getImageType` does not return a format object with extension `"jpg"`: it
returns the bare string `"jpg"` (line 45), whose `.ext` field is undefined,
so the downstream MIME derivation throws instead of producing a value. -/
theorem getImageType_noSignature_bare_string (env : Env) (b : ByteBuf)
    (hsvg : env.isSvg b = false) (hty : env.imageTypeExt b = none) :
    getImageType env b = .str "jpg" ∧
    extField (getImageType env b) = none ∧
    getImageMimeFromExtensionJs (extField (getImageType env b)) = none := by
  have h : getImageType env b = .str "jpg" := by simp [getImageType, hsvg, hty]
  exact ⟨h, by rw [h]; rfl, by rw [h]; rfl⟩

/-- Witness for C1 at a concrete signatureless input. -/
theorem getImageType_noSignature_bare_string_witness :
    getImageType sampleEnv [0, 1, 2] = .str "jpg" ∧
    extField (getImageType sampleEnv [0, 1, 2]) = none ∧
    getImageMimeFromExtensionJs (extField (getImageType sampleEnv [0, 1, 2])) = none :=
  getImageType_noSignature_bare_string sampleEnv [0, 1, 2] (by decide) (by decide)

/-- **C8**: for an input with no SVG or raster signature (hence undecodable
by the raster codec, so the external resize fails), `getImageType` yields
the bare string `"jpg"`, the processed asset's `.ext` is undefined, and the
detached commit aborts with a TypeError before any write: the `updateImage`
trace ends at `throwTypeError` with no `setMime` and no `setContent`, so the
note keeps its placeholder MIME and content. -/
theorem unknown_signature_commit_aborts (env : Env) (noteId : String)
    (b : ByteBuf) (name stack : String)
    (hsvg : env.isSvg b = false) (hty : env.imageTypeExt b = none)
    (hres : env.resizeResult b = .error stack) :
    getImageType env b = .str "jpg" ∧
    extField (processImage env b name true).imageFormat = none ∧
    updateImageTrace env noteId b name =
      [.logInfo ("Updating image " ++ noteId ++ ": " ++ name),
       .getNote noteId, .createNoteRevision noteId, .protectNoteRevisions noteId,
       .setLabel noteId "originalFileName" name, .txBegin, .throwTypeError] := by
  have hfmt : getImageType env b = .str "jpg" := by simp [getImageType, hsvg, hty]
  have hbuf : (processImage env b name true).buffer = b :=
    processImage_buffer_of_resizeError env b name stack hres true
  have himg : (processImage env b name true).imageFormat = .str "jpg" := by
    rw [processImage_imageFormat, hbuf, hfmt]
  refine ⟨hfmt, by rw [himg]; rfl, ?_⟩
  simp [updateImageTrace, commitEvents, himg, extField]

/-- Witness for C8 at a concrete signatureless input. -/
theorem unknown_signature_commit_aborts_witness :
    updateImageTrace sampleEnv "n1" [0, 1, 2] "x.bin" =
      [.logInfo "Updating image n1: x.bin", .getNote "n1", .createNoteRevision "n1",
       .protectNoteRevisions "n1", .setLabel "n1" "originalFileName" "x.bin",
       .txBegin, .throwTypeError] :=
  (unknown_signature_commit_aborts sampleEnv "n1" [0, 1, 2] "x.bin"
    "Error: Could not find MIME for Buffer" (by decide) (by decide) (by rfl)).2.2

/-- **C6**: in every `updateImage` execution, any prefix of the event trace
containing a content write already contains the revision snapshot: the new
content is never visible before the prior-state snapshot exists. -/
theorem updateImage_snapshot_before_content (env : Env) (noteId : String)
    (b : ByteBuf) (name : String) (n : Nat) (bb : ByteBuf)
    (h : Ev.setContent noteId bb ∈ (updateImageTrace env noteId b name).take n) :
    Ev.createNoteRevision noteId ∈ (updateImageTrace env noteId b name).take n := by
  match n with
  | 0 => simp at h
  | 1 => simp [updateImageTrace, List.take] at h
  | 2 => simp [updateImageTrace, List.take] at h
  | (m + 3) => simp [updateImageTrace, List.take]

/-- Witness for C6: a concrete jpg upload whose commit writes content at
trace position 8, with the snapshot already in the same prefix. -/
theorem updateImage_snapshot_before_content_witness :
    Ev.setContent "n1" [255, 216, 0] ∈
      (updateImageTrace sampleEnv "n1" [255, 216, 0, 0] "pic.jpg").take 9 ∧
    Ev.createNoteRevision "n1" ∈
      (updateImageTrace sampleEnv "n1" [255, 216, 0, 0] "pic.jpg").take 9 :=
  ⟨by decide,
   updateImage_snapshot_before_content sampleEnv "n1" [255, 216, 0, 0] "pic.jpg" 9
     [255, 216, 0] (by decide)⟩

/-- **C9**: `saveImage` creates the note with placeholder MIME `"unknown"`,
empty content, and protection exactly when the parent is protected and a
protected session is active; it returns the sanitized filename, the new
noteId and the url `api/images/` ++ noteId ++ `/` ++ fileName; and in the
event trace the caller-visible return precedes every content write of the
detached commit. -/
theorem saveImage_sync_contract (env : Env) (sanitize : String → String)
    (pp sa : Bool) (newNoteId parentNoteId : String) (b : ByteBuf)
    (name : String) (sw : Bool) :
    (saveImage sanitize pp sa newNoteId parentNoteId name).2.fileName = sanitize name ∧
    (saveImage sanitize pp sa newNoteId parentNoteId name).2.noteId = newNoteId ∧
    (saveImage sanitize pp sa newNoteId parentNoteId name).2.url =
      "api/images/" ++ newNoteId ++ "/" ++ sanitize name ∧
    (saveImage sanitize pp sa newNoteId parentNoteId name).1.mime = "unknown" ∧
    (saveImage sanitize pp sa newNoteId parentNoteId name).1.content = "" ∧
    (saveImage sanitize pp sa newNoteId parentNoteId name).1.isProtected = (pp && sa) ∧
    ∀ (n : Nat) (bb : ByteBuf),
      Ev.setContent newNoteId bb ∈
        (saveImageTrace env sanitize pp sa newNoteId parentNoteId b name sw).take n →
      Ev.returnRecord (saveImage sanitize pp sa newNoteId parentNoteId name).2 ∈
        (saveImageTrace env sanitize pp sa newNoteId parentNoteId b name sw).take n := by
  refine ⟨rfl, rfl, rfl, rfl, rfl, rfl, ?_⟩
  intro n bb h
  match n with
  | 0 => simp at h
  | 1 => simp [saveImageTrace, saveImage, List.take] at h
  | 2 => simp [saveImageTrace, saveImage, List.take] at h
  | 3 => simp [saveImageTrace, saveImage, List.take] at h
  | 4 => simp [saveImageTrace, saveImage, List.take] at h
  | (m + 5) => simp [saveImageTrace, saveImage, List.take]

/-- Witness for C9: a concrete upload whose detached commit writes content
at trace position 8, with the returned record already in the same prefix. -/
theorem saveImage_sync_contract_witness :
    (saveImage id true true "n2" "p1" "img.png").2.url = "api/images/n2/img.png" ∧
    (saveImage id true true "n2" "p1" "img.png").1.mime = "unknown" ∧
    (saveImage id true true "n2" "p1" "img.png").1.isProtected = true ∧
    Ev.setContent "n2" [255, 216, 0] ∈
      (saveImageTrace sampleEnv id true true "n2" "p1" [255, 216, 0, 0] "img.png" true).take 9 ∧
    Ev.returnRecord (saveImage id true true "n2" "p1" "img.png").2 ∈
      (saveImageTrace sampleEnv id true true "n2" "p1" [255, 216, 0, 0] "img.png" true).take 9 :=
  ⟨(saveImage_sync_contract sampleEnv id true true "n2" "p1" [255, 216, 0, 0]
      "img.png" true).2.2.1,
   (saveImage_sync_contract sampleEnv id true true "n2" "p1" [255, 216, 0, 0]
      "img.png" true).2.2.2.1,
   (saveImage_sync_contract sampleEnv id true true "n2" "p1" [255, 216, 0, 0]
      "img.png" true).2.2.2.2.2.1,
   by decide,
   (saveImage_sync_contract sampleEnv id true true "n2" "p1" [255, 216, 0, 0]
      "img.png" true).2.2.2.2.2.2 9 [255, 216, 0] (by decide)⟩
